import Mathlib

/-!
Verification of the DVD conversion pipeline (dvd_to_mp4.py / web_dvd_converter.py).

The Python source is shallowly embedded: pure string and list manipulation
becomes Lean functions on `String` / `List`, the mutable `conversion_status`
dictionary becomes an explicit `JobState` record threaded through update
functions, floats in progress arithmetic become `ℚ`, and fallible parsing
returns `Option`.
-/

/-- `Char.ofNat 39` is the ASCII apostrophe used by the concat manifest lines. -/
def quoteChar : Char := Char.ofNat 39

/-- Python `str.isspace` / the whitespace set stripped by `str.rstrip()`,
for code points below 0x100: tab, newline, vertical tab, form feed,
carriage return, the separator controls 0x1C-0x1F, space, next-line 0x85 and
no-break space 0xA0. -/
def pyIsSpace (c : Char) : Bool :=
  let n := c.toNat
  (9 ≤ n && n ≤ 13) || (28 ≤ n && n ≤ 31) || n = 32 || n = 133 || n = 160

/-- Python `str.isalnum`, modelled exactly for code points below 0x100:
ASCII digits and letters, plus the Latin-1 alphanumerics Unicode assigns to
categories L*/N* (ª ² ³ µ ¹ º ¼ ½ ¾ and the accented letters À-ÿ except
× and ÷).  Python additionally accepts alphanumerics at and above 0x100;
those are not modelled here (the modelled keep-set is a subset of Python's). -/
def pyIsAlnum (c : Char) : Bool :=
  let n := c.toNat
  (48 ≤ n && n ≤ 57) || (65 ≤ n && n ≤ 90) || (97 ≤ n && n ≤ 122) ||
  n = 0xAA || n = 0xB2 || n = 0xB3 || n = 0xB5 || n = 0xB9 || n = 0xBA ||
  (0xBC ≤ n && n ≤ 0xBE) || (0xC0 ≤ n && n ≤ 0xD6) ||
  (0xD8 ≤ n && n ≤ 0xF6) || (0xF8 ≤ n && n ≤ 0xFF)

/-- The character filter of `get_dvd_info`'s title sanitization:
`c.isalnum() or c in (' ', '-', '_')`. -/
def keepTitleChar (c : Char) : Bool :=
  pyIsAlnum c || c == ' ' || c == '-' || c == '_'

/-- Python `str.rstrip()`: drop trailing whitespace characters. -/
def pyRstrip (l : List Char) : List Char :=
  (l.reverse.dropWhile pyIsSpace).reverse

/-- The space-to-underscore substitution of `title.replace(' ', '_')`. -/
def spaceToUnderscore (c : Char) : Char :=
  if c == ' ' then '_' else c

/-- Title sanitization from `get_dvd_info` (dvd_to_mp4.py lines 112-113):
`title = "".join(c for c in title if c.isalnum() or c in (' ', '-', '_')).rstrip()`
then `title = title.replace(' ', '_') if title else "DVD_Conversion"`. -/
def sanitizeTitleChars (l : List Char) : List Char :=
  let stripped := pyRstrip (l.filter keepTitleChar)
  if stripped.isEmpty then "DVD_Conversion".toList
  else stripped.map spaceToUnderscore

/-- String-level wrapper for the title sanitization. -/
def sanitizeTitle (s : String) : String :=
  ⟨sanitizeTitleChars s.toList⟩

/-- The character class `[A-Za-z0-9_-]` named by the specification
(code points: digits 48-57, upper 65-90, lower 97-122, hyphen 45,
underscore 95). -/
def asciiTitleChar (c : Char) : Bool :=
  let n := c.toNat
  (48 ≤ n && n ≤ 57) || (65 ≤ n && n ≤ 90) || (97 ≤ n && n ≤ 122) ||
  n = 45 || n = 95

/-- Python `str.startswith`, character-based. -/
def pyStartsWith (s pre : String) : Bool :=
  pre.toList.isPrefixOf s.toList

/-- Python `str.endswith`, character-based. -/
def pyEndsWith (s suf : String) : Bool :=
  suf.toList.isSuffixOf s.toList

/-- Index of the first occurrence of `sep` in a character list. -/
def findSub (sep : List Char) : List Char → Option Nat
  | [] => if sep.isEmpty then some 0 else none
  | c :: t => if sep.isPrefixOf (c :: t) then some 0 else (findSub sep t).map (· + 1)

/-- Fuelled splitter on a nonempty separator; `fuel` bounds the number of
pieces (each split consumes at least one character). -/
def splitOnAux (sep : List Char) : Nat → List Char → List (List Char)
  | 0, l => [l]
  | Nat.succ fuel, l =>
      match findSub sep l with
      | none => [l]
      | some i => l.take i :: splitOnAux sep fuel (l.drop (i + sep.length))

/-- Python `s.split(sep)` for a nonempty separator. -/
def pySplitOn (s sep : String) : List String :=
  (splitOnAux sep.toList (s.toList.length + 1) s.toList).map (fun cs => ⟨cs⟩)

/-- ASCII digit test. -/
def pyIsDigit (c : Char) : Bool :=
  48 ≤ c.toNat && c.toNat ≤ 57

/-- Value of a nonempty all-digit character list. -/
def charsToNatDigits (l : List Char) : Option Nat :=
  if l.isEmpty then none
  else l.foldl (fun acc c =>
    match acc with
    | none => none
    | some n => if pyIsDigit c then some (n * 10 + (c.toNat - 48)) else none) (some 0)

/-- The VOB segment filter of both converters (dvd_to_mp4.py lines 238-239,
web_dvd_converter.py lines 157-158): keep files named `VTS_01_*.VOB`,
excluding menu segments `*_0.VOB`. -/
def isTitleSegment (f : String) : Bool :=
  pyStartsWith f "VTS_01_" && pyEndsWith f ".VOB" && !(pyEndsWith f "_0.VOB")

/-- Python `sorted` applied to a directory listing: lexicographic ascending
string sort (Python compares strings lexicographically by code point, which
is the order on the character lists). -/
def pySorted (listing : List String) : List String :=
  List.insertionSort (fun a b => a.toList ≤ b.toList) listing

/-- Segment enumeration: `for file in sorted(os.listdir(video_ts_path))`
collecting the files that pass `isTitleSegment`, in iteration order. -/
def listVobFiles (listing : List String) : List String :=
  (pySorted listing).filter isTitleSegment

/-- `os.path.join` for the paths appearing here (no absolute right operand). -/
def joinPath (dir f : String) : String := dir ++ "/" ++ f

/-- One line of the concat manifest, `f"file '{vob_file}'"` (the writer adds
the newline). -/
def manifestLine (vobFile : String) : String :=
  "file " ++ String.singleton quoteChar ++ vobFile ++ String.singleton quoteChar

/-- The contents of the temporary concat manifest `temp_concat.txt`: one
`file '...'` line per enumerated segment, written in enumeration order. -/
def concatManifest (vobFiles : List String) : List String :=
  vobFiles.map manifestLine

/-- One stream object of ffprobe's JSON output: `codec_type`, `index`,
`codec_name`, the stream tags `language` and `title`, audio `channels`,
video `width`/`height`.  Absent keys are `none`. -/
structure RawStream where
  codec_type : String
  index : Option Nat
  codec_name : Option String
  tagLanguage : Option String
  tagTitle : Option String
  channels : Option Nat
  width : Option Nat
  height : Option Nat
deriving Repr, DecidableEq

/-- The parsed ffprobe JSON document: the format-level `title` tag and the
stream list. -/
structure ProbeData where
  formatTitle : Option String
  streams : List RawStream
deriving Repr, DecidableEq

/-- Outcome of the ffprobe inspection invocation: its exit code, and the
parse of its stdout (`none` models `json.loads` raising). -/
structure FfprobeResult where
  returncode : Int
  parsed : Option ProbeData
deriving Repr, DecidableEq

/-- An entry of `dvd_info['audio_streams']`. -/
structure AudioStream where
  index : Option Nat
  language : String
  codec : String
  channels : Nat
  title : String
deriving Repr, DecidableEq

/-- An entry of `dvd_info['video_streams']`. -/
structure VideoStream where
  index : Option Nat
  codec : Option String
  width : Option Nat
  height : Option Nat
deriving Repr, DecidableEq

/-- An entry of `dvd_info['subtitle_streams']`. -/
structure SubtitleStream where
  index : Option Nat
  language : String
  codec : Option String
  title : String
deriving Repr, DecidableEq

/-- The dictionary returned by `get_dvd_info`. -/
structure DVDInfo where
  title : String
  audio_streams : List AudioStream
  video_streams : List VideoStream
  subtitle_streams : List SubtitleStream
  vob_files_count : Nat
deriving Repr, DecidableEq

/-- One step of the stream-classification loop of `get_dvd_info`
(dvd_to_mp4.py lines 120-146): append to the list matching `codec_type`,
defaulting `language` to `"unknown"` and synthesizing `"Audio {n}"` /
`"Subtitle {n}"` titles from the 1-based position within the kind. -/
def classifyStep (acc : List AudioStream × List VideoStream × List SubtitleStream)
    (s : RawStream) : List AudioStream × List VideoStream × List SubtitleStream :=
  let (as, vs, ss) := acc
  if s.codec_type = "audio" then
    (as ++ [⟨s.index, s.tagLanguage.getD "unknown", s.codec_name.getD "unknown",
      s.channels.getD 0, s.tagTitle.getD ("Audio " ++ toString (as.length + 1))⟩], vs, ss)
  else if s.codec_type = "video" then
    (as, vs ++ [⟨s.index, s.codec_name, s.width, s.height⟩], ss)
  else if s.codec_type = "subtitle" then
    (as, vs, ss ++ [⟨s.index, s.tagLanguage.getD "unknown", s.codec_name,
      s.tagTitle.getD ("Subtitle " ++ toString (ss.length + 1))⟩])
  else acc

/-- The full stream-classification loop. -/
def classifyStreams (streams : List RawStream) :
    List AudioStream × List VideoStream × List SubtitleStream :=
  streams.foldl classifyStep ([], [], [])

/-- Raw title resolution of `get_dvd_info` (lines 106-110): the format tag
defaulting to `'Unknown_DVD'`, replaced by the volume basename when empty or
defaulted and the source is a DVD volume. -/
def resolveRawTitle (formatTitle : Option String) (isDvdVolume : Bool)
    (volumeBasename : String) : String :=
  let t := formatTitle.getD "Unknown_DVD"
  if t = "" ∨ t = "Unknown_DVD" then
    (if isDvdVolume then volumeBasename else t)
  else t

/-- The fallback dictionary `get_dvd_info` returns when the inspection
invocation exits non-zero or its output cannot be parsed
(dvd_to_mp4.py lines 159-165). -/
def fallbackDvdInfo : DVDInfo :=
  ⟨"DVD_Conversion", [], [], [], 0⟩

/-- `get_dvd_info` (dvd_to_mp4.py lines 91-165).  `videoTsListing` is the
directory listing of `VIDEO_TS` when that directory exists. -/
def getDvdInfo (probe : FfprobeResult) (isDvdVolume : Bool)
    (videoTsListing : Option (List String)) (volumeBasename : String) : DVDInfo :=
  if probe.returncode = 0 then
    match probe.parsed with
    | some data =>
        let title := sanitizeTitle (resolveRawTitle data.formatTitle isDvdVolume volumeBasename)
        let (as, vs, ss) := classifyStreams data.streams
        { title := title, audio_streams := as, video_streams := vs, subtitle_streams := ss,
          vob_files_count :=
            match (if isDvdVolume then videoTsListing else none) with
            | some listing => (listVobFiles listing).length
            | none => 1 }
    | none => fallbackDvdInfo
  else fallbackDvdInfo

/-- Format-specific video encoder settings of `convert_dvd_to_video`
(dvd_to_mp4.py lines 257-306), including the silent default fallback of the
final `else` branch. -/
def videoEncodingArgs (fmt : String) : List String :=
  if fmt = "mp4" then
    ["-c:v", "libx264", "-preset", "veryslow", "-crf", "30", "-maxrate", "300k",
     "-bufsize", "600k", "-profile:v", "baseline", "-level", "3.0",
     "-movflags", "+faststart", "-vf", "scale=640:480"]
  else if fmt = "3gp" then
    ["-c:v", "libx264", "-preset", "veryslow", "-crf", "32", "-maxrate", "200k",
     "-bufsize", "400k", "-profile:v", "baseline", "-level", "1.3",
     "-vf", "scale=320:240"]
  else if fmt = "mkv" then
    ["-c:v", "libx264", "-preset", "slow", "-crf", "26", "-maxrate", "500k",
     "-bufsize", "1000k", "-vf", "scale=720:576"]
  else if fmt = "webm" then
    ["-c:v", "libvpx-vp9", "-crf", "32", "-b:v", "300k", "-vf", "scale=640:480"]
  else
    ["-c:v", "libx264", "-preset", "medium", "-crf", "23"]

/-- The format-indexed audio bitrate dictionary with default `'64k'`
(dvd_to_mp4.py lines 316 and 326). -/
def audioBitrateFor (fmt : String) : String :=
  if fmt = "mp4" then "48k" else if fmt = "3gp" then "32k"
  else if fmt = "mkv" then "128k" else if fmt = "webm" then "64k" else "64k"

/-- The supported output format identifiers of the CLI (`--format` choices). -/
def supportedFormats : List String := ["mp4", "3gp", "mkv", "webm"]

/-- Audio-track arguments of `convert_dvd_to_video` (lines 308-327): in
`'all'` mode with detected streams, map video 0 and every audio stream with
per-index codec/bitrate and language/title metadata when the language is
known; otherwise one default codec/bitrate pair. -/
def cliAudioArgs (fmt audioTracks : String) (audioStreams : List AudioStream) :
    List String :=
  if audioTracks = "all" ∧ audioStreams ≠ [] then
    ["-map", "0:v:0"] ++
    (audioStreams.enum.map (fun p =>
      ["-map", "0:a:" ++ toString p.1, "-c:a:" ++ toString p.1, "aac",
       "-b:a:" ++ toString p.1, audioBitrateFor fmt] ++
      (if p.2.language ≠ "unknown" then
        ["-metadata:s:a:" ++ toString p.1, "language=" ++ p.2.language,
         "-metadata:s:a:" ++ toString p.1, "title=" ++ p.2.title]
      else []))).flatten
  else
    ["-c:a", "aac", "-b:a", audioBitrateFor fmt]

/-- Subtitle arguments (dvd_to_mp4.py lines 330-336 and
web_dvd_converter.py lines 200-206, identical): map each subtitle stream
with `mov_text` plus metadata when the language is known. -/
def subtitleArgs (includeSubtitles : Bool) (subtitleStreams : List SubtitleStream) :
    List String :=
  if includeSubtitles ∧ subtitleStreams ≠ [] then
    (subtitleStreams.enum.map (fun p =>
      ["-map", "0:s:" ++ toString p.1, "-c:s:" ++ toString p.1, "mov_text"] ++
      (if p.2.language ≠ "unknown" then
        ["-metadata:s:s:" ++ toString p.1, "language=" ++ p.2.language,
         "-metadata:s:s:" ++ toString p.1, "title=" ++ p.2.title]
      else []))).flatten
  else []

/-- The single ffmpeg command `convert_dvd_to_video` builds
(dvd_to_mp4.py lines 253-342). -/
def buildCliFfmpegCmd (dvdInput outputPath fmt audioTracks : String)
    (includeSubtitles : Bool) (info : DVDInfo) : List String :=
  ["ffmpeg", "-f", "concat", "-safe", "0", "-i", dvdInput] ++
  videoEncodingArgs fmt ++
  cliAudioArgs fmt audioTracks info.audio_streams ++
  subtitleArgs includeSubtitles info.subtitle_streams ++
  ["-movflags", "+faststart", "-y", outputPath]

/-- The external-engine invocations one CLI conversion performs: the function
spawns exactly one subprocess (`subprocess.Popen(cmd)` at line 352). -/
def cliConversionInvocations (dvdInput outputPath fmt audioTracks : String)
    (includeSubtitles : Bool) (info : DVDInfo) : List (List String) :=
  [buildCliFfmpegCmd dvdInput outputPath fmt audioTracks includeSubtitles info]

/-- Audio-track arguments of `convert_dvd_to_video_web`
(web_dvd_converter.py lines 181-197): as in the CLI but with a fixed
`128k` bitrate. -/
def webAudioArgs (audioTracks : String) (audioStreams : List AudioStream) :
    List String :=
  if audioTracks = "all" ∧ audioStreams ≠ [] then
    ["-map", "0:v:0"] ++
    (audioStreams.enum.map (fun p =>
      ["-map", "0:a:" ++ toString p.1, "-c:a:" ++ toString p.1, "aac",
       "-b:a:" ++ toString p.1, "128k"] ++
      (if p.2.language ≠ "unknown" then
        ["-metadata:s:a:" ++ toString p.1, "language=" ++ p.2.language,
         "-metadata:s:a:" ++ toString p.1, "title=" ++ p.2.title]
      else []))).flatten
  else
    ["-c:a", "aac", "-b:a", "128k"]

/-- The single ffmpeg command `convert_dvd_to_video_web` builds
(web_dvd_converter.py lines 170-212). -/
def buildWebFfmpegCmd (dvdInput outputPath audioTracks : String)
    (includeSubtitles : Bool) (info : DVDInfo) : List String :=
  ["ffmpeg", "-f", "concat", "-safe", "0", "-i", dvdInput,
   "-c:v", "libx264", "-preset", "medium", "-crf", "23"] ++
  webAudioArgs audioTracks info.audio_streams ++
  subtitleArgs includeSubtitles info.subtitle_streams ++
  ["-movflags", "+faststart", "-y", outputPath]

/-- The `conversion_status` dictionary of web_dvd_converter.py
(lines 24-31). -/
structure JobState where
  active : Bool
  progress : ℚ
  status : String
  message : String
  output_file : String
  error : String
deriving Repr, DecidableEq

/-- The initial `conversion_status` value. -/
def initialConversionStatus : JobState :=
  ⟨false, 0, "idle", "", "", ""⟩

/-- The JSON body of one `/api/start_conversion` request, with
`dvd_path_exists` standing for the `os.path.exists(dvd_path)` probe. -/
structure ConversionRequest where
  dvd_path : Option String
  dvd_path_exists : Bool
  output_filename : String
  output_dir : String
  output_format : String
  audio_tracks : String
  include_subtitles : Bool
deriving Repr, DecidableEq

/-- What the `start_conversion` endpoint did: the JSON reply fields, the
`conversion_status` value after the call, whether the background worker
thread was started, and the effective output filename handed to it. -/
structure AdmitOutcome where
  success : Bool
  error : Option String
  message : Option String
  statusAfter : JobState
  threadStarted : Bool
  startedFilename : Option String
deriving Repr, DecidableEq

/-- The output-extension fixup of `start_conversion`
(web_dvd_converter.py lines 386-387). -/
def ensureExtension (name fmt : String) : String :=
  if pyEndsWith name ("." ++ fmt) then name else name ++ "." ++ fmt

/-- The `start_conversion` endpoint (web_dvd_converter.py lines 354-400):
reject while `conversion_status['active']`, then validate the DVD path, then
start the worker thread.  No branch writes `conversion_status`. -/
def startConversion (st : JobState) (req : ConversionRequest) : AdmitOutcome :=
  if st.active then
    ⟨false, some "Conversion already in progress", none, st, false, none⟩
  else
    match req.dvd_path with
    | none => ⟨false, some "DVD path is required", none, st, false, none⟩
    | some p =>
        if !req.dvd_path_exists then
          ⟨false, some ("DVD path does not exist: " ++ p), none, st, false, none⟩
        else
          ⟨true, none, some "Conversion started", st, true,
            some (ensureExtension req.output_filename req.output_format)⟩

/-- Python `min` on two floats. -/
def pyMin (a b : ℚ) : ℚ :=
  if b ≤ a then b else a

/-- Round-half-even to an integer, as Python's `round` and `'%.1f'`
formatting do. -/
def roundHalfEvenInt (q : ℚ) : ℤ :=
  let f := ⌊q⌋
  let r := q - f
  if r < 1/2 then f else if 1/2 < r then f + 1 else if f % 2 = 0 then f else f + 1

/-- Python `round(q, 1)`. -/
def pyRound1 (q : ℚ) : ℚ :=
  (roundHalfEvenInt (q * 10) : ℚ) / 10

/-- Python `f'{q:.1f}'`. -/
def formatFixed1 (q : ℚ) : String :=
  let n := roundHalfEvenInt (q * 10)
  (if n < 0 then "-" else "") ++ toString (n.natAbs / 10) ++ "." ++ toString (n.natAbs % 10)

/-- The `conversion_status.update` at the top of `convert_dvd_to_video_web`
(web lines 127-134). -/
def workerStartUpdate (st : JobState) (dvdPath outputPath : String) : JobState :=
  { st with
    active := true, progress := 0, status := "starting",
    message := "Starting conversion of " ++ dvdPath,
    output_file := outputPath, error := "" }

/-- The stream-count message update (web lines 143-145). -/
def workerStreamInfoUpdate (st : JobState) (audioCount subtitleCount : Nat) : JobState :=
  { st with
    message := "Found " ++ toString audioCount ++ " audio tracks and " ++
      toString subtitleCount ++ " subtitle tracks" }

/-- The update on the first parsed `Duration:` line (web lines 236-239):
status becomes `converting`. -/
def workerDurationUpdate (st : JobState) (durationStr : String) : JobState :=
  { st with
    status := "converting",
    message := "Converting... Duration: " ++ durationStr }

/-- The update on a parsed `time=` sample when the total duration is known
and positive (web lines 252-256): `progress` is overwritten with the new
rounded percentage. -/
def workerProgressUpdate (st : JobState) (percentage : ℚ) : JobState :=
  { st with
    progress := pyRound1 percentage,
    message := "Converting... " ++ formatFixed1 percentage ++ "% complete" }

/-- The update on a parsed `time=` sample without a known positive duration
(web lines 258-260). -/
def workerTimeOnlyUpdate (st : JobState) (timePart : String) : JobState :=
  { st with message := "Converting... Time: " ++ timePart }

/-- The success update (web lines 274-280). -/
def workerCompleteUpdate (st : JobState) (fileSizeMB : ℚ) (outputPath : String) : JobState :=
  { st with
    active := false, progress := 100, status := "completed",
    message := "Conversion completed! File size: " ++ formatFixed1 fileSizeMB ++ " MB",
    output_file := outputPath }

/-- The non-zero-exit update (web lines 284-290). -/
def workerFailUpdate (st : JobState) (returncode : Int) : JobState :=
  { st with
    active := false, progress := 0, status := "error",
    message := "Conversion failed with return code: " ++ toString returncode,
    error := "FFmpeg error code: " ++ toString returncode }

/-- The exception update (web lines 295-301), also reached when the engine
binary is missing. -/
def workerExceptionUpdate (st : JobState) (errText : String) : JobState :=
  { st with
    active := false, progress := 0, status := "error",
    message := "Error during conversion: " ++ errText, error := errText }

/-- The `cancel_conversion` endpoint (web lines 407-425): it only rewrites
the `conversion_status` dictionary; the worker thread and the subprocess are
untouched (`JobState → JobState` is its entire effect). -/
def cancelConversion (st : JobState) : JobState :=
  { st with
    active := false, progress := 0, status := "cancelled",
    message := "Conversion cancelled by user", error := "" }

/-- Python `needle in line` for a nonempty needle. -/
def strContains (line needle : String) : Bool :=
  (pySplitOn line needle).length > 1

/-- Python `str.strip()` on the character list. -/
def pyStripChars (l : List Char) : List Char :=
  pyRstrip (l.dropWhile pyIsSpace)

/-- Python `str.strip()`. -/
def pyStrip (s : String) : String :=
  ⟨pyStripChars s.toList⟩

/-- Python `int(s)`: strip whitespace, optional sign, digits. -/
def pyInt (s : String) : Option ℤ :=
  match pyStripChars s.toList with
  | [] => none
  | c :: rest =>
      if c = '-' then (charsToNatDigits rest).map (fun n => -(n : ℤ))
      else if c = '+' then (charsToNatDigits rest).map (fun n => (n : ℤ))
      else (charsToNatDigits (c :: rest)).map (fun n => (n : ℤ))

/-- Python `float(s)` for the decimal literals the engine emits: optional
sign, digits, optional fraction. -/
def parsePyFloat (s : String) : Option ℚ :=
  let cs := pyStripChars s.toList
  let neg := cs.head? = some '-'
  let t := if cs.head? = some '-' ∨ cs.head? = some '+' then cs.tail else cs
  match splitOnAux ['.'] (t.length + 1) t with
  | [a] =>
      match charsToNatDigits a with
      | some n => some (if neg then -(n : ℚ) else (n : ℚ))
      | none => none
  | [a, b] =>
      if a.isEmpty && b.isEmpty then none
      else if a.all pyIsDigit && b.all pyIsDigit then
        let v : ℚ := ((charsToNatDigits a).getD 0 : ℕ) +
          ((charsToNatDigits b).getD 0 : ℕ) / ((10 : ℚ) ^ b.length)
        some (if neg then -v else v)
      else none
  | _ => none

/-- `h, m, s = part.split(':')` then `int(h)*3600 + int(m)*60 + float(s)`,
`none` when any step raises. -/
def parseClock (s : String) : Option ℚ :=
  match pySplitOn s ":" with
  | [h, m, sec] =>
      match pyInt h, pyInt m, parsePyFloat sec with
      | some hv, some mv, some sv => some ((hv : ℚ) * 3600 + (mv : ℚ) * 60 + sv)
      | _, _, _ => none
  | _ => none

/-- `line.split('Duration: ')[1].split(',')[0]`; `none` when the index
raises. -/
def parseDurationStr (line : String) : Option String :=
  match pySplitOn line "Duration: " with
  | _ :: second :: _ => some ((pySplitOn second ",").headD "")
  | _ => none

/-- Python `str.split()` with no argument: split on whitespace runs. -/
def pySplitWhitespace (s : String) : List String :=
  ((List.splitOnP pyIsSpace s.toList).filter (fun t => !t.isEmpty)).map (fun cs => ⟨cs⟩)

/-- `line.split('time=')[1].split()[0]`; `none` when an index raises. -/
def parseTimePart (line : String) : Option String :=
  match pySplitOn line "time=" with
  | _ :: second :: _ =>
      match pySplitWhitespace second with
      | [] => none
      | t :: _ => some t
  | _ => none

/-- The progress monitor's loop state: the locked total duration, the current
`conversion_status`, and the states emitted so far. -/
structure MonitorState where
  duration : Option ℚ
  st : JobState
  emitted : List JobState
deriving Repr, DecidableEq

/-- One iteration of the stdout loop of `convert_dvd_to_video_web`
(web lines 226-264): strip the line, lock the first parsed `Duration:`
value, and on `time=` lines overwrite the progress with
`min(current/duration*100, 100)` when a positive duration is known. -/
def webProcessLine (acc0 : MonitorState) (rawLine : String) : MonitorState :=
  let line := pyStrip rawLine
  let acc :=
    if strContains line "Duration:" && acc0.duration.isNone then
      match parseDurationStr line with
      | some ds =>
          match parseClock ds with
          | some d =>
              let st := workerDurationUpdate acc0.st ds
              ⟨some d, st, acc0.emitted ++ [st]⟩
          | none => acc0
      | none => acc0
    else acc0
  if strContains line "time=" then
    match parseTimePart line with
    | some tp =>
        match parseClock tp with
        | some t =>
            match acc.duration with
            | some d =>
                if 0 < d then
                  let st := workerProgressUpdate acc.st (pyMin (t / d * 100) 100)
                  ⟨acc.duration, st, acc.emitted ++ [st]⟩
                else
                  let st := workerTimeOnlyUpdate acc.st tp
                  ⟨acc.duration, st, acc.emitted ++ [st]⟩
            | none =>
                let st := workerTimeOnlyUpdate acc.st tp
                ⟨acc.duration, st, acc.emitted ++ [st]⟩
        | none => acc
    | none => acc
  else acc

/-- The whole stdout loop over the engine's diagnostic lines. -/
def webProcessLines (st0 : JobState) (lines : List String) : MonitorState :=
  lines.foldl webProcessLine ⟨none, st0, []⟩

/-- Behavior of the spawned engine process: either it runs producing
diagnostic lines, an exit code and an output size, or spawning/reading
raises (e.g. `FileNotFoundError` when the binary is missing). -/
inductive EngineResult where
  | runs (lines : List String) (returncode : Int) (outputSizeMB : ℚ)
  | raises (errText : String)
deriving Repr, DecidableEq

/-- What one full `convert_dvd_to_video_web` call produced: the final
`conversion_status`, the sequence of emitted states, whether
`temp_concat.txt` still exists afterwards, and the boolean return value. -/
structure WebRunResult where
  finalStatus : JobState
  emitted : List JobState
  concatFileRemains : Bool
  returnValue : Bool
deriving Repr, DecidableEq

/-- `convert_dvd_to_video_web` (web lines 117-303).  The manifest cleanup
(lines 269-270) runs after `process.wait()` on both exit paths, but the
`except` path returns without it. -/
def runWebConversion (st0 : JobState) (dvdPath outputFilename outputDir : String)
    (probe : FfprobeResult) (isDvdVolume : Bool) (videoTsListing : Option (List String))
    (volumeBasename : String) (engine : EngineResult) : WebRunResult :=
  let outputPath := joinPath outputDir outputFilename
  let st1 := workerStartUpdate st0 dvdPath outputPath
  let info := getDvdInfo probe isDvdVolume videoTsListing volumeBasename
  let st2 := workerStreamInfoUpdate st1 info.audio_streams.length info.subtitle_streams.length
  let vobs : List String :=
    match (if isDvdVolume then videoTsListing else none) with
    | some listing => (listVobFiles listing).map (joinPath (joinPath dvdPath "VIDEO_TS"))
    | none => []
  let concatCreated := !vobs.isEmpty
  match engine with
  | .raises errText =>
      let st3 := workerExceptionUpdate st2 errText
      ⟨st3, [st1, st2, st3], concatCreated, false⟩
  | .runs diagLines code sizeMB =>
      let m := webProcessLines st2 diagLines
      if code = 0 then
        let st3 := workerCompleteUpdate m.st sizeMB outputPath
        ⟨st3, [st1, st2] ++ m.emitted ++ [st3], false, true⟩
      else
        let st3 := workerFailUpdate m.st code
        ⟨st3, [st1, st2] ++ m.emitted ++ [st3], false, false⟩

/-- Behavior of the CLI engine process, separating the dedicated
`FileNotFoundError` handler from the catch-all (dvd_to_mp4.py 407-420). -/
inductive CliEngineResult where
  | runs (diagLines : List String) (returncode : Int)
  | raisesFileNotFound
  | raisesOther (errText : String)
deriving Repr, DecidableEq

/-- Result of the CLI `convert_dvd_to_video` try-block for a structured
volume whose concat manifest was created (dvd_to_mp4.py lines 350-420):
the function's return value and whether `temp_concat.txt` still exists. -/
structure CliRunResult where
  returnValue : Option String
  concatFileRemains : Bool
deriving Repr, DecidableEq

/-- The exit paths of `convert_dvd_to_video` after the manifest was created:
cleanup runs on the zero-exit branch (lines 397-398) and the non-zero-exit
branch (lines 403-404), but neither exception handler removes the
manifest. -/
def runCliConversion (outputPath : String) (engine : CliEngineResult) : CliRunResult :=
  match engine with
  | .runs _ code => if code = 0 then ⟨some outputPath, false⟩ else ⟨none, false⟩
  | .raisesFileNotFound => ⟨none, true⟩
  | .raisesOther _ => ⟨none, true⟩

/-- The method names defined on class `DVDConverter` (dvd_to_mp4.py). -/
def dvdConverterMethods : List String :=
  ["__init__", "find_dvd_drive", "is_dvd_volume", "get_dvd_info", "get_dvd_title",
   "convert_dvd_to_video", "wait_for_dvd", "run"]

/-- Python attribute lookup on a `DVDConverter` instance: methods are found
in the class dictionary, anything else raises `AttributeError`. -/
inductive PyAttrLookup where
  | found (name : String)
  | attributeError (name : String)
deriving Repr, DecidableEq

/-- `getattr(self, name)` for `DVDConverter`. -/
def getattrDVDConverter (name : String) : PyAttrLookup :=
  if name ∈ dvdConverterMethods then .found name else .attributeError name

/-- `DVDConverter.run` (dvd_to_mp4.py lines 438-454): resolve the DVD path
(argument, else `wait_for_dvd()`), then evaluate
`self.convert_dvd_to_mp4(dvd_path)`.  `Except.error` is a raised
`AttributeError`; `.ok none` is the early return when no DVD was detected;
`.ok (some p)` would be reaching the conversion call. -/
def dvdConverterRun (dvdPath detected : Option String) : Except String (Option String) :=
  match (match dvdPath with | some p => some p | none => detected) with
  | none => .ok none
  | some p =>
      match getattrDVDConverter "convert_dvd_to_mp4" with
      | .attributeError n => .error ("AttributeError: " ++ n)
      | .found _ => .ok (some p)

/-- The specification's 2-segment scenario: a structured volume whose
`VIDEO_TS` listing holds a menu segment and two title segments. -/
def scenario2SegListing : List String :=
  ["VTS_01_0.VOB", "VTS_01_1.VOB", "VTS_01_2.VOB"]

/-- The detected streams of the 2-segment scenario: two audio streams with
languages `eng` and `fra`, one video stream, no subtitles. -/
def scenario2SegInfo : DVDInfo :=
  ⟨"Movie", [⟨some 1, "eng", "ac3", 2, "Audio 1"⟩, ⟨some 2, "fra", "ac3", 2, "Audio 2"⟩],
   [⟨some 0, some "mpeg2video", some 720, some 576⟩], [], 2⟩

/-! ## Theorems -/

theorem pyIsAlnum_not_space {c : Char} (h : pyIsAlnum c = true) : pyIsSpace c = false := by
  rw [← Bool.not_eq_true]
  intro hsp
  simp only [pyIsAlnum, Bool.or_eq_true, Bool.and_eq_true, decide_eq_true_eq] at h
  simp only [pyIsSpace, Bool.or_eq_true, Bool.and_eq_true, decide_eq_true_eq] at hsp
  omega

theorem keep_not_space {c : Char} (h : keepTitleChar c = true) (hne : c ≠ ' ') :
    pyIsSpace c = false := by
  simp only [keepTitleChar, Bool.or_eq_true, beq_iff_eq] at h
  rcases h with ((h | h) | h) | h
  · exact pyIsAlnum_not_space h
  · exact absurd h hne
  · subst h; decide
  · subst h; decide

theorem mem_pyRstrip {c : Char} {l : List Char} (h : c ∈ pyRstrip l) : c ∈ l := by
  unfold pyRstrip at h
  rw [List.mem_reverse] at h
  exact List.mem_reverse.mp ((List.dropWhile_sublist _).mem h)

theorem mem_sanitizeTitleChars {c : Char} {l : List Char}
    (h : c ∈ sanitizeTitleChars l) :
    c ∈ "DVD_Conversion".toList ∨
      ∃ d, d ∈ l ∧ keepTitleChar d = true ∧ c = spaceToUnderscore d := by
  unfold sanitizeTitleChars at h
  by_cases he : (pyRstrip ((l.filter keepTitleChar))).isEmpty
  · rw [if_pos he] at h; exact Or.inl h
  · rw [if_neg he] at h
    right
    rcases List.mem_map.mp h with ⟨d, hd, hcd⟩
    have hdl := mem_pyRstrip hd
    exact ⟨d, List.mem_of_mem_filter hdl, List.of_mem_filter hdl, hcd.symm⟩

theorem fallback_chars_ok :
    ∀ x ∈ "DVD_Conversion".toList, keepTitleChar x = true ∧ pyIsSpace x = false := by
  decide

theorem sanitize_output_char {c : Char} {l : List Char}
    (h : c ∈ sanitizeTitleChars l) :
    keepTitleChar c = true ∧ pyIsSpace c = false := by
  rcases mem_sanitizeTitleChars h with h | ⟨d, _, hk, hcd⟩
  · exact fallback_chars_ok c h
  · subst hcd
    unfold spaceToUnderscore
    by_cases hsp : d == ' '
    · rw [if_pos hsp]; exact ⟨by decide, by decide⟩
    · rw [if_neg hsp]
      have hne : d ≠ ' ' := by simpa using hsp
      exact ⟨hk, keep_not_space hk hne⟩

theorem dropWhile_eq_self_of_none {p : Char → Bool} {l : List Char}
    (h : ∀ c ∈ l, p c = false) : l.dropWhile p = l := by
  cases l with
  | nil => rfl
  | cons a l => simp [List.dropWhile_cons, h a (List.mem_cons_self a l)]

theorem pyRstrip_eq_self {l : List Char} (h : ∀ c ∈ l, pyIsSpace c = false) :
    pyRstrip l = l := by
  unfold pyRstrip
  rw [dropWhile_eq_self_of_none (fun c hc => h c (List.mem_reverse.mp hc)),
    List.reverse_reverse]

theorem sanitize_nonempty (l : List Char) : (sanitizeTitleChars l).isEmpty = false := by
  unfold sanitizeTitleChars
  by_cases he : (pyRstrip ((l.filter keepTitleChar))).isEmpty
  · rw [if_pos he]; decide
  · rw [if_neg he]
    simpa [List.isEmpty_iff] using List.isEmpty_iff.not.mp he

theorem sanitizeTitleChars_eq (l : List Char) :
    sanitizeTitleChars l =
      if (pyRstrip (l.filter keepTitleChar)).isEmpty then "DVD_Conversion".toList
      else (pyRstrip (l.filter keepTitleChar)).map spaceToUnderscore := rfl

theorem sanitizeTitleChars_idem (l : List Char) :
    sanitizeTitleChars (sanitizeTitleChars l) = sanitizeTitleChars l := by
  have hchar := fun c hc => sanitize_output_char (l := l) (c := c) hc
  have hfil : (sanitizeTitleChars l).filter keepTitleChar = sanitizeTitleChars l :=
    List.filter_eq_self.mpr (fun c hc => (hchar c hc).1)
  have hstrip : pyRstrip (sanitizeTitleChars l) = sanitizeTitleChars l :=
    pyRstrip_eq_self (fun c hc => (hchar c hc).2)
  have hmap : (sanitizeTitleChars l).map spaceToUnderscore = sanitizeTitleChars l := by
    rw [List.map_congr_left (g := id), List.map_id]
    intro c hc
    have hne : c ≠ ' ' := by
      intro hcc
      have := (hchar c hc).2
      rw [hcc] at this
      exact absurd this (by decide)
    simp [spaceToUnderscore, hne]
  conv_lhs => rw [sanitizeTitleChars_eq]
  rw [hfil, hstrip, if_neg (by simp [sanitize_nonempty]), hmap]

theorem sanitizeTitle_idem (s : String) :
    sanitizeTitle (sanitizeTitle s) = sanitizeTitle s := by
  unfold sanitizeTitle
  simp [sanitizeTitleChars_idem]

theorem fallback_chars_ascii :
    ∀ x ∈ "DVD_Conversion".toList, asciiTitleChar x = true := by
  decide

theorem sanitize_ascii_of_ascii {l : List Char} (h : ∀ c ∈ l, c.toNat < 128) :
    ∀ c ∈ sanitizeTitleChars l, asciiTitleChar c = true := by
  intro c hc
  rcases mem_sanitizeTitleChars hc with hm | ⟨d, hdl, hk, hcd⟩
  · exact fallback_chars_ascii c hm
  · subst hcd
    have hd128 := h d hdl
    unfold spaceToUnderscore
    by_cases hsp : d == ' '
    · rw [if_pos hsp]; decide
    · rw [if_neg hsp]
      have hne : d ≠ ' ' := by simpa using hsp
      simp only [keepTitleChar, Bool.or_eq_true, beq_iff_eq] at hk
      rcases hk with ((hk | hk) | hk) | hk
      · simp only [pyIsAlnum, Bool.or_eq_true, Bool.and_eq_true, decide_eq_true_eq] at hk
        simp only [asciiTitleChar, Bool.or_eq_true, Bool.and_eq_true, decide_eq_true_eq]
        omega
      · exact absurd hk hne
      · subst hk; decide
      · subst hk; decide

theorem pySorted_pairwise (listing : List String) :
    (pySorted listing).Pairwise (· ≤ ·) := by
  haveI : IsTotal String (fun a b => a.toList ≤ b.toList) :=
    ⟨fun a b => le_total a.toList b.toList⟩
  haveI : IsTrans String (fun a b => a.toList ≤ b.toList) :=
    ⟨fun a b c hab hbc => le_trans hab hbc⟩
  have hs := List.sorted_insertionSort (fun a b : String => a.toList ≤ b.toList) listing
  exact hs.imp (fun h => String.le_iff_toList_le.mpr h)

theorem listVobFiles_pairwise (listing : List String) :
    (listVobFiles listing).Pairwise (· ≤ ·) := by
  unfold listVobFiles
  exact (pySorted_pairwise listing).filter isTitleSegment

theorem mem_listVobFiles {f : String} {listing : List String} (hm : f ∈ listing)
    (hf : isTitleSegment f = true) : f ∈ listVobFiles listing := by
  unfold listVobFiles pySorted
  exact List.mem_filter.mpr
    ⟨(List.perm_insertionSort (fun a b : String => a.toList ≤ b.toList) listing).mem_iff.mpr hm, hf⟩

/-- C6: segment enumeration keeps exactly the qualifying `VTS_01_*.VOB`
files while excluding every menu segment `*_0.VOB`, returns them sorted by
filename ascending, and the concat manifest is written in exactly that
order (its i-th line is built from the i-th enumerated segment path). -/
theorem c6_segment_enumeration (listing : List String) :
    (∀ f ∈ listVobFiles listing,
        pyStartsWith f "VTS_01_" = true ∧ pyEndsWith f ".VOB" = true ∧
        pyEndsWith f "_0.VOB" = false) ∧
    (∀ f ∈ listing, isTitleSegment f = true → f ∈ listVobFiles listing) ∧
    (listVobFiles listing).Pairwise (· ≤ ·) ∧
    (∀ (dir : String) (i : ℕ),
        (concatManifest ((listVobFiles listing).map (joinPath dir)))[i]? =
        (((listVobFiles listing).map (joinPath dir))[i]?).map manifestLine) := by
  refine ⟨?_, fun f hm hf => mem_listVobFiles hm hf, listVobFiles_pairwise listing, ?_⟩
  · intro f hf
    have := List.of_mem_filter hf
    simpa [isTitleSegment, Bool.and_eq_true, Bool.not_eq_true', and_assoc] using this
  · intro dir i
    simp [concatManifest, List.getElem?_map]

/-- C6 witness: the theorem applied to a concrete directory listing. -/
theorem c6_segment_enumeration_witness :
    (pyStartsWith "VTS_01_1.VOB" "VTS_01_" = true ∧ pyEndsWith "VTS_01_1.VOB" ".VOB" = true ∧
      pyEndsWith "VTS_01_1.VOB" "_0.VOB" = false) ∧
    "VTS_01_2.VOB" ∈ listVobFiles ["VTS_01_2.VOB", "VTS_01_0.VOB", "VIDEO_TS.IFO", "VTS_01_1.VOB"] := by
  refine ⟨(c6_segment_enumeration ["VTS_01_2.VOB", "VTS_01_0.VOB", "VIDEO_TS.IFO", "VTS_01_1.VOB"]).1
    "VTS_01_1.VOB" (by decide), ?_⟩
  exact (c6_segment_enumeration ["VTS_01_2.VOB", "VTS_01_0.VOB", "VIDEO_TS.IFO", "VTS_01_1.VOB"]).2.1
    "VTS_01_2.VOB" (by decide) (by decide)

/-- C7 counterexample: the claim "output contains only characters in
[A-Za-z0-9_-]" fails at the concrete input `"é"`: Python's `str.isalnum`
accepts the non-ASCII letter, so sanitization preserves it unchanged. -/
theorem c7_sanitize_counterexample :
    sanitizeTitle "é" = "é" ∧ 'é' ∈ (sanitizeTitle "é").toList ∧
    asciiTitleChar 'é' = false := by
  decide

/-- C7 amended: sanitization is idempotent for every input; every output
character passes the sanitizer's own filter and is non-whitespace; and for
ASCII inputs the output is contained in `[A-Za-z0-9_-]` — but not for
general Unicode input (see the counterexample). -/
theorem c7_sanitize_amended (s : String) :
    sanitizeTitle (sanitizeTitle s) = sanitizeTitle s ∧
    (∀ c ∈ (sanitizeTitle s).toList, keepTitleChar c = true ∧ pyIsSpace c = false) ∧
    ((∀ c ∈ s.toList, c.toNat < 128) →
      ∀ c ∈ (sanitizeTitle s).toList, asciiTitleChar c = true) := by
  refine ⟨sanitizeTitle_idem s, ?_, ?_⟩
  · intro c hc
    exact sanitize_output_char hc
  · intro h c hc
    exact sanitize_ascii_of_ascii h c hc

/-- C7 witness: the amended theorem applied at a concrete title. -/
theorem c7_sanitize_witness :
    sanitizeTitle (sanitizeTitle "My DVD 1") = sanitizeTitle "My DVD 1" ∧
    asciiTitleChar 'M' = true :=
  ⟨(c7_sanitize_amended "My DVD 1").1,
   (c7_sanitize_amended "My DVD 1").2.2 (by decide) 'M' (by decide)⟩

/-- C10: `DVDConverter.run` calls `self.convert_dvd_to_mp4`, a method the
class does not define (its conversion method is `convert_dvd_to_video`), so
for every DVD path — supplied or auto-detected — it raises
`AttributeError` before any conversion output is produced. -/
theorem c10_run_attribute_error :
    "convert_dvd_to_mp4" ∉ dvdConverterMethods ∧
    "convert_dvd_to_video" ∈ dvdConverterMethods ∧
    (∀ p d, dvdConverterRun (some p) d =
      .error "AttributeError: convert_dvd_to_mp4") ∧
    (∀ p, dvdConverterRun none (some p) =
      .error "AttributeError: convert_dvd_to_mp4") := by
  refine ⟨by decide, by decide, fun p d => rfl, fun p => rfl⟩

/-- C2 counterexample: for the specification's 2-segment scenario (format
`mp4`, audio mode `all`, audio languages `eng`/`fra`) the code emits exactly
ONE external-engine invocation — a single-pass concat-demuxer call — not the
claimed `segments + 1 = 3` two-phase invocations. -/
theorem c2_two_phase_counterexample :
    (listVobFiles scenario2SegListing).length = 2 ∧
    (cliConversionInvocations "/out/temp_concat.txt" "/out/Movie.mp4" "mp4" "all" true
      scenario2SegInfo).length = 1 ∧
    ¬ ((cliConversionInvocations "/out/temp_concat.txt" "/out/Movie.mp4" "mp4" "all" true
      scenario2SegInfo).length = 2 + 1) ∧
    ((cliConversionInvocations "/out/temp_concat.txt" "/out/Movie.mp4" "mp4" "all" true
      scenario2SegInfo).headD []).take 3 = ["ffmpeg", "-f", "concat"] := by
  decide

/-- C2 amended: for the 2-segment scenario the command builder emits exactly
one single-pass invocation: the concat demuxer reads the manifest listing
the two segments in ascending order, maps video stream 0 plus audio streams
0 and 1 with `aac` codec and `eng`/`fra` language metadata, re-encodes with
the mp4 profile, and writes the requested `.mp4` path directly.  No
Phase-A/Phase-B split exists. -/
theorem c2_single_pass_amended :
    listVobFiles scenario2SegListing = ["VTS_01_1.VOB", "VTS_01_2.VOB"] ∧
    concatManifest ((listVobFiles scenario2SegListing).map (joinPath "/dvd/VIDEO_TS")) =
      [manifestLine "/dvd/VIDEO_TS/VTS_01_1.VOB", manifestLine "/dvd/VIDEO_TS/VTS_01_2.VOB"] ∧
    cliConversionInvocations "/out/temp_concat.txt" "/out/Movie.mp4" "mp4" "all" true
      scenario2SegInfo =
      [["ffmpeg", "-f", "concat", "-safe", "0", "-i", "/out/temp_concat.txt",
        "-c:v", "libx264", "-preset", "veryslow", "-crf", "30", "-maxrate", "300k",
        "-bufsize", "600k", "-profile:v", "baseline", "-level", "3.0",
        "-movflags", "+faststart", "-vf", "scale=640:480",
        "-map", "0:v:0",
        "-map", "0:a:0", "-c:a:0", "aac", "-b:a:0", "48k",
        "-metadata:s:a:0", "language=eng", "-metadata:s:a:0", "title=Audio 1",
        "-map", "0:a:1", "-c:a:1", "aac", "-b:a:1", "48k",
        "-metadata:s:a:1", "language=fra", "-metadata:s:a:1", "title=Audio 2",
        "-movflags", "+faststart", "-y", "/out/Movie.mp4"]] := by
  decide

/-- C3 counterexample: the unsupported format `"avi"` does not fail fast —
the encoder-settings selection silently substitutes the default settings,
and admission accepts the request and starts the worker. -/
theorem c3_unsupported_format_counterexample :
    "avi" ∉ supportedFormats ∧
    videoEncodingArgs "avi" = ["-c:v", "libx264", "-preset", "medium", "-crf", "23"] ∧
    (startConversion initialConversionStatus
      ⟨some "/dev/dvd", true, "movie", "/out", "avi", "all", true⟩).success = true ∧
    (startConversion initialConversionStatus
      ⟨some "/dev/dvd", true, "movie", "/out", "avi", "all", true⟩).threadStarted = true ∧
    (startConversion initialConversionStatus
      ⟨some "/dev/dvd", true, "movie", "/out", "avi", "all", true⟩).startedFilename =
      some "movie.avi" := by
  decide

/-- C3 amended: for every format outside the supported set, the
encoder-settings lookup silently falls back to the default settings
(`libx264`, preset `medium`, crf `23`), and admission performs no format
validation: any format is accepted and the worker started whenever no job is
active and the DVD path exists. -/
theorem c3_unsupported_format_amended (fmt : String) (hf : fmt ∉ supportedFormats) :
    videoEncodingArgs fmt = ["-c:v", "libx264", "-preset", "medium", "-crf", "23"] ∧
    (∀ (st : JobState) (req : ConversionRequest) (p : String),
      st.active = false → req.dvd_path = some p → req.dvd_path_exists = true →
      (startConversion st req).success = true ∧
      (startConversion st req).threadStarted = true) := by
  constructor
  · simp only [supportedFormats, List.mem_cons, List.not_mem_nil, or_false, not_or] at hf
    obtain ⟨h1, h2, h3, h4⟩ := hf
    simp [videoEncodingArgs, h1, h2, h3, h4]
  · intro st req p ha hp he
    simp [startConversion, ha, hp, he]

/-- C3 witness: the amended theorem applied to the format `"avi"`. -/
theorem c3_unsupported_format_witness :
    videoEncodingArgs "avi" = ["-c:v", "libx264", "-preset", "medium", "-crf", "23"] ∧
    (startConversion { initialConversionStatus with status := "completed" }
      ⟨some "/dev/dvd", true, "movie", "/out", "avi", "all", true⟩).success = true := by
  refine ⟨(c3_unsupported_format_amended "avi" (by decide)).1, ?_⟩
  exact ((c3_unsupported_format_amended "avi" (by decide)).2
    { initialConversionStatus with status := "completed" }
    ⟨some "/dev/dvd", true, "movie", "/out", "avi", "all", true⟩ "/dev/dvd" rfl rfl rfl).1

/-- C1: while `conversion_status['active']` is set — which holds in every
non-terminal phase the worker publishes (`starting`, `converting`) — a
further admit call is rejected with the JobAlreadyActive-style refusal
`"Conversion already in progress"`, leaves the job state unchanged, and
starts no worker thread (hence no subprocess). -/
theorem c1_single_active_job (st : JobState) (req : ConversionRequest)
    (h : st.active = true) :
    startConversion st req =
      ⟨false, some "Conversion already in progress", none, st, false, none⟩ ∧
    (∀ (s : JobState) (p o : String),
      (workerStartUpdate s p o).active = true ∧ (workerStartUpdate s p o).status = "starting") ∧
    (∀ (s : JobState) (d : String),
      (workerDurationUpdate s d).active = s.active ∧
      (workerDurationUpdate s d).status = "converting") ∧
    (∀ (s : JobState) (q : ℚ),
      (workerProgressUpdate s q).active = s.active ∧
      (workerProgressUpdate s q).status = s.status) ∧
    (∀ (s : JobState) (a b : Nat),
      (workerStreamInfoUpdate s a b).active = s.active ∧
      (workerStreamInfoUpdate s a b).status = s.status) := by
  refine ⟨by simp [startConversion, h], fun s p o => ⟨rfl, rfl⟩, fun s d => ⟨rfl, rfl⟩,
    fun s q => ⟨rfl, rfl⟩, fun s a b => ⟨rfl, rfl⟩⟩

/-- C1 witness: a second admit call against the state the worker publishes
on job start is rejected unchanged. -/
theorem c1_single_active_job_witness :
    startConversion (workerStartUpdate initialConversionStatus "/dev/dvd" "/out/movie.mp4")
      ⟨some "/dev/dvd", true, "second", "/out", "mp4", "all", true⟩ =
    ⟨false, some "Conversion already in progress", none,
      workerStartUpdate initialConversionStatus "/dev/dvd" "/out/movie.mp4", false, none⟩ :=
  (c1_single_active_job _ _ rfl).1

/-- C9: a cancel request only rewrites the published `conversion_status`
dictionary (phase `cancelled`, `active` false) — its entire effect is the
state-to-state function below — and the worker's subsequent writes overwrite
the cancelled phase with `converting`, `completed` or `error`, so the
observer-visible cancelled state is not sticky. -/
theorem c9_cancel_not_sticky (st : JobState) (d op : String) (sz : ℚ) (code : Int) :
    cancelConversion st =
      { st with
        active := false, progress := 0, status := "cancelled",
        message := "Conversion cancelled by user", error := "" } ∧
    (cancelConversion st).status = "cancelled" ∧
    (workerDurationUpdate (cancelConversion st) d).status = "converting" ∧
    (workerCompleteUpdate (cancelConversion st) sz op).status = "completed" ∧
    (workerFailUpdate (cancelConversion st) code).status = "error" ∧
    (workerDurationUpdate (cancelConversion st) d).status ≠ "cancelled" ∧
    (workerCompleteUpdate (cancelConversion st) sz op).status ≠ "cancelled" := by
  refine ⟨rfl, rfl, rfl, rfl, rfl, fun hc => ?_, fun hc => ?_⟩
  · exact absurd (show ("converting" : String) = "cancelled" from hc) (by decide)
  · exact absurd (show ("completed" : String) = "cancelled" from hc) (by decide)

theorem parseClock_eval {s a b c : String} {hv mv : ℤ} {sv : ℚ}
    (hsplit : pySplitOn s ":" = [a, b, c])
    (hha : pyInt a = some hv) (hhb : pyInt b = some mv) (hhc : parsePyFloat c = some sv) :
    parseClock s = some ((hv : ℚ) * 3600 + (mv : ℚ) * 60 + sv) := by
  simp only [parseClock, hsplit, hha, hhb, hhc]

theorem parsePyFloat_zero : parsePyFloat "00.00" = some 0 := by
  rw [show parsePyFloat "00.00" = some (((0:ℕ):ℚ) + ((0:ℕ):ℚ) / (10:ℚ) ^ 2) from rfl]
  norm_num

theorem parsePyFloat_thirty : parsePyFloat "30.00" = some 30 := by
  rw [show parsePyFloat "30.00" = some (((30:ℕ):ℚ) + ((0:ℕ):ℚ) / (10:ℚ) ^ 2) from rfl]
  norm_num

theorem parseClock_600 : parseClock "00:10:00.00" = some 600 := by
  have h1 : pySplitOn "00:10:00.00" ":" = ["00", "10", "00.00"] := by decide
  have h2 : pyInt "00" = some 0 := by decide
  have h3 : pyInt "10" = some 10 := by decide
  rw [parseClock_eval h1 h2 h3 parsePyFloat_zero]
  norm_num

theorem parseClock_300 : parseClock "00:05:00.00" = some 300 := by
  have h1 : pySplitOn "00:05:00.00" ":" = ["00", "05", "00.00"] := by decide
  have h2 : pyInt "00" = some 0 := by decide
  have h3 : pyInt "05" = some 5 := by decide
  rw [parseClock_eval h1 h2 h3 parsePyFloat_zero]
  norm_num

theorem parseClock_150 : parseClock "00:02:30.00" = some 150 := by
  have h1 : pySplitOn "00:02:30.00" ":" = ["00", "02", "30.00"] := by decide
  have h2 : pyInt "00" = some 0 := by decide
  have h3 : pyInt "02" = some 2 := by decide
  rw [parseClock_eval h1 h2 h3 parsePyFloat_thirty]
  norm_num

theorem webProcessLine_duration_eval (acc : MonitorState) (line ds : String) (d : ℚ)
    (hstrip : pyStrip line = line) (hdc : strContains line "Duration:" = true)
    (hn : acc.duration = none) (hp : parseDurationStr line = some ds)
    (hcl : parseClock ds = some d) (htc : strContains line "time=" = false) :
    webProcessLine acc line =
      ⟨some d, workerDurationUpdate acc.st ds,
        acc.emitted ++ [workerDurationUpdate acc.st ds]⟩ := by
  simp [webProcessLine, hstrip, hdc, hn, hp, hcl, htc]

theorem webProcessLine_time_eval (acc : MonitorState) (line tp : String) (t d : ℚ)
    (hstrip : pyStrip line = line) (hdc : strContains line "Duration:" = false)
    (htc : strContains line "time=" = true) (htp : parseTimePart line = some tp)
    (hcl : parseClock tp = some t) (hd : acc.duration = some d) (hpos : 0 < d) :
    webProcessLine acc line =
      ⟨acc.duration, workerProgressUpdate acc.st (pyMin (t / d * 100) 100),
        acc.emitted ++ [workerProgressUpdate acc.st (pyMin (t / d * 100) 100)]⟩ := by
  simp [webProcessLine, hstrip, hdc, htc, htp, hcl, hd, hpos]

/-- C4 counterexample: within one invocation (total duration 600s), a sample
at 300s reports progress 50 and a later regressing sample at 150s reports
progress 25 — the published progress DECREASES instead of retaining the
previous maximum, refuting the claimed monotonicity. -/
theorem c4_progress_counterexample :
    ((webProcessLines initialConversionStatus
        ["Duration: 00:10:00.00, start: 0.000000, bitrate: 5000 kb/s",
         "frame= 100 fps=25 q=28.0 size= 1024kB time=00:05:00.00 bitrate=1365.3kbits/s",
         "frame= 200 fps=25 q=28.0 size= 2048kB time=00:02:30.00 bitrate=1365.3kbits/s"]).emitted.map
      (fun s => s.progress)) = [0, 50, 25] ∧ ((25:ℚ) < 50) := by
  have hpos : (0:ℚ) < 600 := by norm_num
  have h1 := webProcessLine_duration_eval ⟨none, initialConversionStatus, []⟩
    "Duration: 00:10:00.00, start: 0.000000, bitrate: 5000 kb/s" "00:10:00.00" 600
    (by decide) (by decide) rfl (by decide) parseClock_600 (by decide)
  have h2 := webProcessLine_time_eval
    ⟨some 600, workerDurationUpdate initialConversionStatus "00:10:00.00",
      [workerDurationUpdate initialConversionStatus "00:10:00.00"]⟩
    "frame= 100 fps=25 q=28.0 size= 1024kB time=00:05:00.00 bitrate=1365.3kbits/s"
    "00:05:00.00" 300 600
    (by decide) (by decide) (by decide) (by decide) parseClock_300 rfl hpos
  have h3 := webProcessLine_time_eval
    ⟨some 600,
      workerProgressUpdate (workerDurationUpdate initialConversionStatus "00:10:00.00")
        (pyMin ((300:ℚ) / 600 * 100) 100),
      [workerDurationUpdate initialConversionStatus "00:10:00.00",
       workerProgressUpdate (workerDurationUpdate initialConversionStatus "00:10:00.00")
         (pyMin ((300:ℚ) / 600 * 100) 100)]⟩
    "frame= 200 fps=25 q=28.0 size= 2048kB time=00:02:30.00 bitrate=1365.3kbits/s"
    "00:02:30.00" 150 600
    (by decide) (by decide) (by decide) (by decide) parseClock_150 rfl hpos
  refine ⟨?_, by norm_num⟩
  simp only [webProcessLines, List.foldl_cons, List.foldl_nil]
  rw [h1]
  simp only [List.nil_append] at h2 ⊢
  rw [h2]
  simp only [List.cons_append, List.nil_append] at h3 ⊢
  rw [h3]
  simp only [List.map_cons, List.map_nil, List.cons_append, List.nil_append]
  refine congrArg₂ _ rfl (congrArg₂ _ ?_ (congrArg₂ _ ?_ rfl))
  · norm_num [workerProgressUpdate, pyMin, pyRound1, roundHalfEvenInt]
  · norm_num [workerProgressUpdate, pyMin, pyRound1, roundHalfEvenInt]

theorem roundHalfEvenInt_le {q : ℚ} {n : ℤ} (h : q ≤ (n:ℚ)) : roundHalfEvenInt q ≤ n := by
  have hf : ⌊q⌋ ≤ n := by
    have h1 := Int.floor_le_floor h
    simpa using h1
  have hfq := Int.floor_le q
  unfold roundHalfEvenInt
  dsimp only
  split_ifs with h1 h2 h3
  · exact hf
  · have hhalf : (⌊q⌋:ℚ) + 1/2 ≤ q := by
      push_neg at h1
      linarith
    have hlt : (⌊q⌋:ℚ) < (n:ℚ) := by linarith
    have : ⌊q⌋ < n := by exact_mod_cast hlt
    omega
  · exact hf
  · have hhalf : (⌊q⌋:ℚ) + 1/2 ≤ q := by
      push_neg at h1
      linarith
    have hlt : (⌊q⌋:ℚ) < (n:ℚ) := by linarith
    have : ⌊q⌋ < n := by exact_mod_cast hlt
    omega

theorem pyRound1_pyMin_100_le (x : ℚ) : pyRound1 (pyMin x 100) ≤ 100 := by
  have hm : pyMin x 100 ≤ 100 := by
    unfold pyMin
    split_ifs with h
    · exact le_refl _
    · exact le_of_not_le h
  have h10 : pyMin x 100 * 10 ≤ ((1000:ℤ):ℚ) := by
    push_cast
    linarith
  have hr := roundHalfEvenInt_le h10
  unfold pyRound1
  rw [div_le_iff₀ (by norm_num : (0:ℚ) < 10)]
  calc (roundHalfEvenInt (pyMin x 100 * 10) : ℚ) ≤ ((1000:ℤ):ℚ) := by exact_mod_cast hr
    _ = 100 * 10 := by norm_num

/-- C4 amended: when a positive total duration is known, each parsed `time=`
sample overwrites the progress with `round(min(elapsed/duration*100, 100), 1)`
— clamped above so it never exceeds 100 — but it is written regardless of
the previously displayed value, so it is not monotonically non-decreasing
(see the counterexample); the locked duration is unchanged. -/
theorem c4_progress_amended (acc : MonitorState) (line tp : String) (t d : ℚ)
    (hstrip : pyStrip line = line) (hdc : strContains line "Duration:" = false)
    (htc : strContains line "time=" = true) (htp : parseTimePart line = some tp)
    (hcl : parseClock tp = some t) (hd : acc.duration = some d) (hpos : 0 < d) :
    (webProcessLine acc line).st.progress = pyRound1 (pyMin (t / d * 100) 100) ∧
    (webProcessLine acc line).st.progress ≤ 100 ∧
    (webProcessLine acc line).duration = acc.duration := by
  rw [webProcessLine_time_eval acc line tp t d hstrip hdc htc htp hcl hd hpos]
  exact ⟨rfl, pyRound1_pyMin_100_le _, rfl⟩

theorem parsePyFloat_six : parsePyFloat "06.00" = some 6 := by
  rw [show parsePyFloat "06.00" = some (((6:ℕ):ℚ) + ((0:ℕ):ℚ) / (10:ℚ) ^ 2) from rfl]
  norm_num

theorem parseClock_1026 : parseClock "00:17:06.00" = some 1026 := by
  have h1 : pySplitOn "00:17:06.00" ":" = ["00", "17", "06.00"] := by decide
  have h2 : pyInt "00" = some 0 := by decide
  have h3 : pyInt "17" = some 17 := by decide
  rw [parseClock_eval h1 h2 h3 parsePyFloat_six]
  norm_num

/-- C4 witness: the amended theorem at the specification's own scenario —
duration `00:34:12.00` (2052s), sample `time=00:17:06.00` (1026s) — reports
exactly 50.0. -/
theorem c4_progress_witness :
    (webProcessLine ⟨some 2052, initialConversionStatus, []⟩
      "frame= 123 fps=25 size= 512kB time=00:17:06.00 bitrate=410.1kbits/s").st.progress = 50 ∧
    (webProcessLine ⟨some 2052, initialConversionStatus, []⟩
      "frame= 123 fps=25 size= 512kB time=00:17:06.00 bitrate=410.1kbits/s").st.progress ≤ 100 := by
  have h := c4_progress_amended ⟨some 2052, initialConversionStatus, []⟩
    "frame= 123 fps=25 size= 512kB time=00:17:06.00 bitrate=410.1kbits/s"
    "00:17:06.00" 1026 2052
    (by decide) (by decide) (by decide) (by decide) parseClock_1026 rfl (by norm_num)
  refine ⟨?_, h.2.1⟩
  rw [h.1]
  norm_num [pyMin, pyRound1, roundHalfEvenInt]

/-- C5 counterexample: when the engine raises (missing binary), the job
reaches the terminal `error` state but the concat manifest created for the
structured source is NOT deleted — cleanup is skipped on the exception exit
path, in both the web worker and the CLI converter. -/
theorem c5_cleanup_counterexample :
    (runWebConversion initialConversionStatus "/dvd" "movie.mp4" "/out" ⟨1, none⟩ true
      (some ["VTS_01_0.VOB", "VTS_01_1.VOB", "VTS_01_2.VOB"]) "dvd"
      (.raises "No such file or directory: ffmpeg")).finalStatus.status = "error" ∧
    (runWebConversion initialConversionStatus "/dvd" "movie.mp4" "/out" ⟨1, none⟩ true
      (some ["VTS_01_0.VOB", "VTS_01_1.VOB", "VTS_01_2.VOB"]) "dvd"
      (.raises "No such file or directory: ffmpeg")).finalStatus.active = false ∧
    (runWebConversion initialConversionStatus "/dvd" "movie.mp4" "/out" ⟨1, none⟩ true
      (some ["VTS_01_0.VOB", "VTS_01_1.VOB", "VTS_01_2.VOB"]) "dvd"
      (.raises "No such file or directory: ffmpeg")).concatFileRemains = true ∧
    (runCliConversion "/out/movie.mp4" .raisesFileNotFound).concatFileRemains = true ∧
    (runCliConversion "/out/movie.mp4" .raisesFileNotFound).returnValue = none := by
  decide

/-- C5 amended: the concat manifest is deleted on the exit paths where the
engine process ran — success and non-zero exit alike — but NOT on exception
paths (e.g. a missing engine binary), where the job still reaches a terminal
state with the manifest left behind; likewise for the CLI converter's
dedicated FileNotFoundError and catch-all handlers. -/
theorem c5_cleanup_amended (st0 : JobState) (dvdPath fn od base err : String)
    (probe : FfprobeResult) (l diagLines : List String) (code : Int) (sz : ℚ)
    (hseg : listVobFiles l ≠ []) :
    (runWebConversion st0 dvdPath fn od probe true (some l) base
      (.runs diagLines code sz)).concatFileRemains = false ∧
    (runWebConversion st0 dvdPath fn od probe true (some l) base
      (.raises err)).concatFileRemains = true ∧
    (runWebConversion st0 dvdPath fn od probe true (some l) base
      (.raises err)).finalStatus.status = "error" ∧
    (runCliConversion od (.runs diagLines code)).concatFileRemains = false ∧
    (runCliConversion od .raisesFileNotFound).concatFileRemains = true ∧
    (runCliConversion od (.raisesOther err)).concatFileRemains = true := by
  refine ⟨?_, ?_, rfl, ?_, rfl, rfl⟩
  · simp only [runWebConversion]
    by_cases hc : code = 0 <;> simp [hc]
  · simp only [runWebConversion]
    simp [List.isEmpty_iff, hseg]
  · simp only [runCliConversion]
    by_cases hc : code = 0 <;> simp [hc]

/-- C5 witness: the amended theorem at a concrete 2-segment volume. -/
theorem c5_cleanup_witness :
    (runWebConversion initialConversionStatus "/dvd" "movie.mp4" "/out" ⟨0, none⟩ true
      (some ["VTS_01_0.VOB", "VTS_01_1.VOB"]) "dvd"
      (.runs [] 0 12)).concatFileRemains = false ∧
    (runWebConversion initialConversionStatus "/dvd" "movie.mp4" "/out" ⟨0, none⟩ true
      (some ["VTS_01_0.VOB", "VTS_01_1.VOB"]) "dvd"
      (.raises "boom")).concatFileRemains = true := by
  have h := c5_cleanup_amended initialConversionStatus "/dvd" "movie.mp4" "/out" "dvd" "boom"
    ⟨0, none⟩ ["VTS_01_0.VOB", "VTS_01_1.VOB"] [] 0 12 (by decide)
  exact ⟨h.1, h.2.1⟩

theorem webTwoLineTrace (s : JobState) :
    webProcessLines s
      ["Duration: 00:10:00.00, start: 0.000000, bitrate: 5000 kb/s",
       "frame= 100 fps=25 q=28.0 size= 1024kB time=00:05:00.00 bitrate=1365.3kbits/s"] =
    ⟨some 600,
     workerProgressUpdate (workerDurationUpdate s "00:10:00.00") (pyMin ((300:ℚ)/600*100) 100),
     [workerDurationUpdate s "00:10:00.00",
      workerProgressUpdate (workerDurationUpdate s "00:10:00.00")
        (pyMin ((300:ℚ)/600*100) 100)]⟩ := by
  have e1 := webProcessLine_duration_eval ⟨none, s, []⟩
    "Duration: 00:10:00.00, start: 0.000000, bitrate: 5000 kb/s" "00:10:00.00" 600
    (by decide) (by decide) rfl (by decide) parseClock_600 (by decide)
  have e2 := webProcessLine_time_eval
    ⟨some 600, workerDurationUpdate s "00:10:00.00", [workerDurationUpdate s "00:10:00.00"]⟩
    "frame= 100 fps=25 q=28.0 size= 1024kB time=00:05:00.00 bitrate=1365.3kbits/s"
    "00:05:00.00" 300 600
    (by decide) (by decide) (by decide) (by decide) parseClock_300 rfl (by norm_num)
  simp only [webProcessLines, List.foldl_cons, List.foldl_nil]
  simp only [List.nil_append] at e1
  rw [e1]
  simp only [List.cons_append, List.nil_append] at e2 ⊢
  rw [e2]

/-- C8: when the inspection invocation exits non-zero or its output cannot
be parsed, `get_dvd_info` returns the fallback TitleInfo (title
`DVD_Conversion`, all stream lists empty) instead of raising; the job's
first published states are still `starting`, and with a successful engine
run the job proceeds through `converting` to `completed` — inspection
failure never produces an `error` state. -/
theorem c8_inspection_fallback (probe : FfprobeResult) (vol : Bool)
    (listing : Option (List String)) (base : String)
    (hp : probe.returncode ≠ 0 ∨ probe.parsed = none) :
    getDvdInfo probe vol listing base = fallbackDvdInfo ∧
    fallbackDvdInfo = ⟨"DVD_Conversion", [], [], [], 0⟩ ∧
    (∀ (st0 : JobState) (dvdPath fn od : String) (eng : EngineResult),
      ((runWebConversion st0 dvdPath fn od probe vol listing base eng).emitted.take 2).map
        (fun s => s.status) = ["starting", "starting"]) ∧
    (∀ (st0 : JobState) (dvdPath fn od : String) (sz : ℚ),
      ((runWebConversion st0 dvdPath fn od probe vol listing base
        (.runs ["Duration: 00:10:00.00, start: 0.000000, bitrate: 5000 kb/s",
                "frame= 100 fps=25 q=28.0 size= 1024kB time=00:05:00.00 bitrate=1365.3kbits/s"]
          0 sz)).emitted.map (fun s => s.status)) =
        ["starting", "starting", "converting", "converting", "completed"]) := by
  have hinfo : getDvdInfo probe vol listing base = fallbackDvdInfo := by
    unfold getDvdInfo
    rcases hp with hp | hp
    · rw [if_neg hp]
    · by_cases hr : probe.returncode = 0
      · rw [if_pos hr, hp]
      · rw [if_neg hr]
  refine ⟨hinfo, rfl, ?_, ?_⟩
  · intro st0 dvdPath fn od eng
    cases eng with
    | raises e =>
        simp [runWebConversion, workerStartUpdate, workerStreamInfoUpdate]
    | runs diagLines code sz =>
        by_cases hrc : code = 0 <;>
          simp [runWebConversion, workerStartUpdate, workerStreamInfoUpdate, hrc]
  · intro st0 dvdPath fn od sz
    simp only [runWebConversion, hinfo]
    rw [webTwoLineTrace]
    simp [workerStartUpdate, workerStreamInfoUpdate, workerDurationUpdate,
      workerProgressUpdate, workerCompleteUpdate]

/-- C8 witness: the theorem applied to a concrete failed inspection
(exit code 1). -/
theorem c8_inspection_fallback_witness :
    getDvdInfo ⟨1, none⟩ true (some ["VTS_01_1.VOB"]) "dvd" = fallbackDvdInfo ∧
    ((runWebConversion initialConversionStatus "/dvd" "m.mp4" "/o" ⟨1, none⟩ true
      (some ["VTS_01_1.VOB"]) "dvd"
      (.runs ["Duration: 00:10:00.00, start: 0.000000, bitrate: 5000 kb/s",
              "frame= 100 fps=25 q=28.0 size= 1024kB time=00:05:00.00 bitrate=1365.3kbits/s"]
        0 12)).emitted.map (fun s => s.status)) =
      ["starting", "starting", "converting", "converting", "completed"] := by
  have h := c8_inspection_fallback ⟨1, none⟩ true (some ["VTS_01_1.VOB"]) "dvd"
    (Or.inl (by decide))
  exact ⟨h.1, h.2.2.2 initialConversionStatus "/dvd" "m.mp4" "/o" 12⟩
